import Mathlib

/-!
Shallow embedding of the `openai_mcp` chatbot repository.

The repository snapshot under verification contains the React frontend
(`src/frontend_react`): `App.js` (message submission, conversation state,
periodic health polling), `services/chatService.js`, `services/healthService.js`,
and the UI components.  The Python backend (conversation manager, OpenAI
client, MCP client, tool executor) is described by the README and the spec but
its sources are not part of the snapshot; where a claim is decided by that
missing code, the corresponding definition is modelled from the spec and says
so in its doc comment.

JavaScript values that matter to control flow are modelled explicitly:
a possibly-absent field is an `Option`, and the JavaScript truthiness tests
used by the code (`if (response.error)`, `status.info`, `x || default`) are
embedded as explicit functions on those options.
-/

namespace OpenaiMcp

/-- Outcome of an HTTP request as seen by an axios caller: a response with a
status code and a body, or a thrown error (network failure, timeout,
non-2xx rejection, request-setup failure are all surfaced as the thrown case
where the code catches without inspecting). -/
inductive HttpResult (α : Type) where
  | ok : Nat → α → HttpResult α
  | thrown : HttpResult α
deriving Repr, DecidableEq

/-- Body of the backend `/health` endpoint as read by `App.js`:
`mcp_integration` and `tools_loaded` are fields the code defaults with
`|| ''` and `|| 0` when absent. -/
structure BackendInfo where
  mcp_integration : Option String
  tools_loaded : Option Nat
deriving Repr, DecidableEq

/-- The value returned by `healthService.checkBackendHealth`:
`{online: bool, info: object}` where `info` is the response body on a 200 and
the empty object otherwise (modelled as `none`). -/
structure BackendStatus where
  online : Bool
  info : Option BackendInfo
deriving Repr, DecidableEq

/-- The `mcpStatus` state of `App.js`: `{online: bool, tools: int}`,
rendered by `Sidebar.js` as the MCP health report. -/
structure McpStatus where
  online : Bool
  tools : Nat
deriving Repr, DecidableEq

/-- JavaScript truthiness of an object-valued field: every object, the empty
object `{}` included, is truthy.  `App.js` guards on `status.info`, whose
value is always an object (`{}` or the parsed body). -/
def jsTruthyObj (_ : Option BackendInfo) : Bool := true

/-- JavaScript truthiness of a string-valued field: absent (`undefined`) and
the empty string are falsy. -/
def jsTruthyStr : Option String → Bool
  | none => false
  | some s => s ≠ ""

/-- Whether `pat` is an initial segment of `l`, on character lists. -/
def charsHaveInit (pat l : List Char) : Bool :=
  match pat, l with
  | [], _ => true
  | _ :: _, [] => false
  | p :: ps, c :: cs => p == c && charsHaveInit ps cs

/-- Whether `pat` occurs contiguously in `l`, on character lists. -/
def charsInclude (l pat : List Char) : Bool :=
  match l with
  | [] => charsHaveInit pat []
  | _ :: cs => charsHaveInit pat l || charsInclude cs pat

/-- JavaScript `s.includes(pat)` on strings: whether `pat` occurs in `s`. -/
def strIncludes (s pat : String) : Bool := charsInclude s.data pat.data

/-- JavaScript `s.trim()`: the string with whitespace removed from both
ends. -/
def jsTrim (s : String) : String :=
  ⟨((s.data.dropWhile Char.isWhitespace).reverse.dropWhile Char.isWhitespace).reverse⟩

/-- `healthService.checkBackendHealth` (healthService.js:7-24): returns
`{online:true, info:data}` on HTTP 200, `{online:false, info:{}}` on any other
status or thrown error; it never throws. -/
def checkBackendHealth : HttpResult BackendInfo → BackendStatus
  | .ok s d => if s == 200 then ⟨true, some d⟩ else ⟨false, none⟩
  | .thrown => ⟨false, none⟩

/-- `healthService.checkMcpHealth` (healthService.js:26-36): `true` iff the
MCP `/health` request returns status 200; `false` on a thrown error. -/
def checkMcpHealth : HttpResult Unit → Bool
  | .ok s _ => s == 200
  | .thrown => false

/-- Body of a successful `/chat` response together with the optional `error`
object shape: `chatService.sendMessage` returns either the parsed body or an
object carrying only `error`, so both are inhabitants of this one shape with
absent fields as `none`. -/
structure ChatResponse where
  error : Option String
  response : Option String
  conversation_id : Option String
  tools_used : Option (List String)
deriving Repr, DecidableEq

/-- The ways a `chatService.sendMessage` call can resolve, as distinguished by
its catch block: a body from the server, a server-reported error
(`error.response`, carrying the optional `detail` field), no response received
(`error.request`), or a request-setup failure carrying `error.message`. -/
inductive SendOutcome where
  | success : ChatResponse → SendOutcome
  | serverError : Option String → SendOutcome
  | noResponse : SendOutcome
  | setupError : String → SendOutcome
deriving Repr, DecidableEq

/-- `chatService.sendMessage` (frontend README, chatService.js source): returns
`response.data` on success; on error returns `{error: detail || 'Server error
occurred'}`, `{error: 'No response from server. ...'}`, or `{error:
error.message}`.  It never throws. -/
def ChatService.sendMessage : SendOutcome → ChatResponse
  | .success d => d
  | .serverError detail =>
      let msg := if jsTruthyStr detail then detail.getD "" else "Server error occurred"
      ⟨some msg, none, none, none⟩
  | .noResponse => ⟨some "No response from server. Please check if backend is running.", none, none, none⟩
  | .setupError msg => ⟨some msg, none, none, none⟩

/-- A chat message as stored in `App.js` state: role, content (absent when the
code stores a JavaScript `undefined`), timestamp, the optional `tools_used`
list on assistant messages, and the `isError` mark on caught-error messages. -/
structure ChatMessage where
  role : String
  content : Option String
  timestamp : String
  tools_used : Option (List String)
  isError : Bool
deriving Repr, DecidableEq

/-- The `App.js` component state relevant to the claims: the message history,
the stored conversation id, the tools toggle, the in-flight flag, and the two
health panels. -/
structure AppState where
  messages : List ChatMessage
  conversationId : Option String
  useTools : Bool
  isLoading : Bool
  backendStatus : BackendStatus
  mcpStatus : McpStatus
deriving Repr, DecidableEq

/-- `handleSendMessage` (App.js:45-86) for one whole submission: the guard
rejects an empty message or a submission while one is in flight; otherwise the
user message is appended, the service is called, and either the assistant
message is appended and the conversation id updated, or (when `response.error`
is truthy) an error-marked assistant message `Error: ...` is appended; the
loading flag is reset in `finally`.  `ts1`/`ts2` stand for the two
`toLocaleTimeString()` reads. -/
def handleSendMessage (st : AppState) (message : String) (outcome : SendOutcome)
    (ts1 ts2 : String) : AppState :=
  if jsTrim message = "" ∨ st.isLoading then st
  else
    let userMessage : ChatMessage := ⟨"user", some message, ts1, none, false⟩
    let st1 := { st with messages := st.messages ++ [userMessage], isLoading := true }
    let response := ChatService.sendMessage outcome
    if jsTruthyStr response.error then
      let errorMessage : ChatMessage :=
        ⟨"assistant", some ("Error: " ++ response.error.getD ""), ts2, none, true⟩
      { st1 with messages := st1.messages ++ [errorMessage], isLoading := false }
    else
      let assistantMessage : ChatMessage :=
        ⟨"assistant", response.response, ts2, response.tools_used, false⟩
      { st1 with messages := st1.messages ++ [assistantMessage],
                 conversationId := response.conversation_id,
                 isLoading := false }

/-- `handleClearConversation` (App.js:94-97): empties the history and clears
the stored conversation id. -/
def handleClearConversation (st : AppState) : AppState :=
  { st with messages := [], conversationId := none }

/-- One tick of the `checkStatus` poller (App.js:20-37), fed the outcomes of
the two probes: the backend panel is always overwritten; the MCP panel is
recomputed only when the backend report is online with a truthy `info` — in
subprocess mode from `tools_loaded`, otherwise from the separate MCP `/health`
probe with the constant count 5. -/
def checkStatus (st : AppState) (bp : HttpResult BackendInfo) (mp : HttpResult Unit) :
    AppState :=
  let status := checkBackendHealth bp
  let st' := { st with backendStatus := status }
  if status.online ∧ jsTruthyObj status.info then
    let info := status.info.getD ⟨none, none⟩
    let mcpIntegration := info.mcp_integration.getD ""
    if strIncludes mcpIntegration "subprocess" then
      let toolsLoaded := info.tools_loaded.getD 0
      { st' with mcpStatus := ⟨decide (toolsLoaded > 0), toolsLoaded⟩ }
    else
      let mcpHealth := checkMcpHealth mp
      { st' with mcpStatus := ⟨mcpHealth, if mcpHealth then 5 else 0⟩ }
  else st'

/-- The externally triggered events that mutate `App.js` state: a message
submission (with its service outcome and timestamps), the explicit clear
button, and a health-poll tick (fired by `setInterval(checkStatus, 5000)`). -/
inductive AppEvent where
  | send : String → SendOutcome → String → String → AppEvent
  | clear : AppEvent
  | health : HttpResult BackendInfo → HttpResult Unit → AppEvent
deriving Repr, DecidableEq

/-- The state transition of `App.js` for one event. -/
def stepApp (st : AppState) : AppEvent → AppState
  | .send msg outcome ts1 ts2 => handleSendMessage st msg outcome ts1 ts2
  | .clear => handleClearConversation st
  | .health bp mp => checkStatus st bp mp

/-- A requested tool invocation: tool name, argument mapping, and a call id
unique within its turn (spec §3, data model). -/
structure ToolInvocation where
  name : String
  arguments : List (String × String)
  callId : String
deriving Repr, DecidableEq

/-- A tool execution result: the call id it answers, a success flag, and a
payload or error text (spec §3, data model). -/
structure ToolResult where
  callId : String
  success : Bool
  payload : String
deriving Repr, DecidableEq

/-- A tool descriptor from the provider catalog: name, description, and the
names of its schema parameters (spec §3, data model). -/
structure ToolDescriptor where
  name : String
  description : String
  paramNames : List String
deriving Repr, DecidableEq

/-- What the tool provider reports for one execution request: a payload, a
provider-reported error, or a timeout (spec §6 provider interface). -/
inductive ProviderOutcome where
  | result : String → ProviderOutcome
  | error : String → ProviderOutcome
  | timeout : ProviderOutcome
deriving Repr, DecidableEq

/-- Modelled from the spec: `ToolExecutor.execute` (spec §4.3; the backend
`mcp_client` sources are not in the repository snapshot).  Whatever the
provider reports, the produced `ToolResult` carries the originating call id
and never raises: timeout and provider errors become failed results. -/
def execute (provider : ToolInvocation → ProviderOutcome) (inv : ToolInvocation) :
    ToolResult :=
  match provider inv with
  | .result p => ⟨inv.callId, true, p⟩
  | .error e => ⟨inv.callId, false, e⟩
  | .timeout => ⟨inv.callId, false, "Timeout"⟩

/-- The first result in a completion-ordered result list answering a given
call id. -/
def resultFor (results : List ToolResult) (cid : String) : Option ToolResult :=
  results.find? (fun r => r.callId == cid)

/-- Modelled from the spec: `ToolExecutor.executeAll` (spec §4.3; the backend
sources are not in the repository snapshot).  `completionOrder` is the order
in which the concurrently dispatched calls happen to complete (a permutation
of the invocations); the results are gathered in that order and re-associated
to their originating call ids, listed per invocation. -/
def executeAll (provider : ToolInvocation → ProviderOutcome)
    (invs completionOrder : List ToolInvocation) : List ToolResult :=
  let gathered := completionOrder.map (execute provider)
  invs.filterMap (fun inv => resultFor gathered inv.callId)

/-- A message in the orchestration history sent to the completion service
(spec §3): user text, plain assistant text, an assistant message carrying
requested tool invocations, or a tool message answering a call id. -/
inductive OrchMessage where
  | user : String → OrchMessage
  | assistant : String → OrchMessage
  | assistantToolCalls : List ToolInvocation → OrchMessage
  | tool : String → String → OrchMessage
deriving Repr, DecidableEq

/-- A completion-service response (spec §4.4): final content, or a set of
requested tool invocations. -/
inductive CompletionResponse where
  | finalContent : String → CompletionResponse
  | toolCalls : List ToolInvocation → CompletionResponse
deriving Repr, DecidableEq

/-- Terminal state of one orchestrated turn (spec §4.4). -/
inductive TurnStatus where
  | DONE
  | FAILED
deriving Repr, DecidableEq

/-- The error that terminates a turn when the round bound is hit
(spec §4.4, §7). -/
inductive OrchError where
  | ToolLoopExceeded
deriving Repr, DecidableEq

/-- What one orchestrated turn returns to the caller (spec §4.4): terminal
status, the final (or partial) answer if any, the error, a degradation notice
when the turn was degraded, the resulting history, and how many rounds ran. -/
structure TurnResult where
  status : TurnStatus
  answer : Option String
  error : Option OrchError
  degradation : Option String
  history : List OrchMessage
  roundsUsed : Nat
deriving Repr, DecidableEq

/-- The default round bound of the orchestration loop (spec §4.4). -/
def DEFAULT_MAX_TOOL_ROUNDS : Nat := 5

/-- Modelled from the spec: the round loop of `CompletionOrchestrator`
(spec §4.4; the backend sources are not in the repository snapshot).  Each
round sends the history to the completion service; final content ends the
turn `DONE`, requested tool calls are executed, appended as tool messages and
the loop repeats; exhausting the round budget ends the turn `FAILED` with
`ToolLoopExceeded` and a degradation notice. -/
def runRounds (service : List OrchMessage → CompletionResponse)
    (exec : ToolInvocation → ToolResult) (history : List OrchMessage) :
    Nat → Nat → TurnResult
  | 0, used =>
      { status := .FAILED, answer := none, error := some .ToolLoopExceeded,
        degradation := some "tool loop exceeded: partial answer only",
        history := history, roundsUsed := used }
  | n + 1, used =>
      match service history with
      | .finalContent c =>
          { status := .DONE, answer := some c, error := none, degradation := none,
            history := history ++ [.assistant c], roundsUsed := used + 1 }
      | .toolCalls calls =>
          let results := calls.map exec
          runRounds service exec
            (history ++ .assistantToolCalls calls ::
              results.map (fun r => .tool r.callId r.payload))
            n (used + 1)

/-- Modelled from the spec: one full turn of `CompletionOrchestrator`
(spec §4.4), starting the round loop with the full message history and the
configured round budget. -/
def runTurn (service : List OrchMessage → CompletionResponse)
    (exec : ToolInvocation → ToolResult) (maxRounds : Nat)
    (history : List OrchMessage) : TurnResult :=
  runRounds service exec history maxRounds 0

/-- The default time-to-live of the tool-catalog cache, in seconds
(spec §4.2). -/
def DEFAULT_CATALOG_TTL : Nat := 30

/-- Modelled from the spec: the state of `ToolCatalogBridge` (spec §4.2; the
backend sources are not in the repository snapshot): the configured
time-to-live and, when a fetch has happened, the cached catalog with the time
it was fetched. -/
structure BridgeState where
  ttl : Nat
  cache : Option (List ToolDescriptor × Nat)
deriving Repr, DecidableEq

/-- What one `fetchTools` call produces: the returned catalog, the bridge
state afterwards, and whether an upstream request was issued. -/
structure FetchOut where
  value : List ToolDescriptor
  state : BridgeState
  upstreamCalled : Bool
deriving Repr, DecidableEq

/-- Modelled from the spec: `ToolCatalogBridge.fetchTools` (spec §4.2; the
backend sources are not in the repository snapshot).  A cached catalog still
inside its time-to-live window is returned with no upstream request;
otherwise the upstream catalog is fetched and cached with the current time. -/
def fetchTools (upstream : Nat → List ToolDescriptor) (st : BridgeState)
    (now : Nat) : FetchOut :=
  match st.cache with
  | some (v, t) =>
      if now < t + st.ttl then ⟨v, st, false⟩
      else
        let v' := upstream now
        ⟨v', { st with cache := some (v', now) }, true⟩
  | none =>
      let v' := upstream now
      ⟨v', { st with cache := some (v', now) }, true⟩

/-- The fetch time of the currently cached catalog (0 when nothing is
cached). -/
def cacheStamp (st : BridgeState) : Nat :=
  match st.cache with
  | some (_, t) => t
  | none => 0

/-- Modelled from the spec: the tool provider as seen from outside
(spec §6): whether it is reachable and the catalog it currently serves. -/
structure ToolProviderEnv where
  reachable : Bool
  catalog : List ToolDescriptor
deriving Repr, DecidableEq

/-- The outcome of probing the separate MCP server `/health` endpoint in a
given provider environment: HTTP 200 when reachable, a thrown error
otherwise. -/
def mcpProbeOf (env : ToolProviderEnv) : HttpResult Unit :=
  if env.reachable then .ok 200 () else .thrown

/-!  Theorems.  -/

/-- C1: For every sequence of submitted messages, the message history is
extended only by appending at the end — after any event the old history is an
unchanged initial segment of the new one (so a read returns messages in exact
append order, nothing is removed, reordered or mutated in place), except for
the explicit clear, which empties the entire history. -/
theorem history_append_only (st : AppState) (e : AppEvent) :
    (e = AppEvent.clear ∧ (stepApp st e).messages = []) ∨
    ∃ tail, (stepApp st e).messages = st.messages ++ tail := by
  cases e with
  | clear => exact Or.inl ⟨rfl, rfl⟩
  | health bp mp =>
      refine Or.inr ⟨[], ?_⟩
      simp only [stepApp, checkStatus]
      split
      · split <;> simp
      · simp
  | send msg o ts1 ts2 =>
      right
      simp only [stepApp, handleSendMessage]
      split
      · exact ⟨[], (List.append_nil _).symm⟩
      · split
        · exact ⟨_, List.append_assoc _ _ _⟩
        · exact ⟨_, List.append_assoc _ _ _⟩

/-- C3: While a submission is in flight (`isLoading = true`), a second
submission for the conversation is rejected as a no-op: the state, and in
particular the message history, is unchanged, so two orchestration loops
never interleave mutations into the same conversation. -/
theorem inflight_submission_rejected (st : AppState) (msg : String)
    (o : SendOutcome) (ts1 ts2 : String) (h : st.isLoading = true) :
    handleSendMessage st msg o ts1 ts2 = st := by
  simp [handleSendMessage, h]

/-- Witness for C3 at a concrete in-flight state. -/
theorem inflight_submission_rejected_witness :
    handleSendMessage ⟨[], none, true, true, ⟨false, none⟩, ⟨false, 0⟩⟩ "hello"
        SendOutcome.noResponse "t1" "t2" =
      ⟨[], none, true, true, ⟨false, none⟩, ⟨false, 0⟩⟩ :=
  inflight_submission_rejected _ "hello" SendOutcome.noResponse "t1" "t2" rfl

/-- C7 counterexample: a request-setup failure whose `error.message` is the
empty string makes `sendMessage` return an object whose `error` field is the
empty string — not a non-empty one as the claim states. -/
theorem chat_error_nonempty_counterexample :
    (ChatService.sendMessage (SendOutcome.setupError "")).error = some "" ∧
      ("" : String).length = 0 := ⟨rfl, rfl⟩

/-- C7 amended: conversation submission never raises — every outcome returns
an object: on success the parsed body; on a server-reported error or a
missing response an object with a non-empty error string; on a request-setup
failure an object whose error field is the setup error's message (which may
be empty). -/
theorem chat_send_never_raises (o : SendOutcome) :
    (∀ d, o = SendOutcome.success d → ChatService.sendMessage o = d) ∧
    (∀ detail, o = SendOutcome.serverError detail →
      ∃ s, (ChatService.sendMessage o).error = some s ∧ s ≠ "") ∧
    (o = SendOutcome.noResponse →
      ∃ s, (ChatService.sendMessage o).error = some s ∧ s ≠ "") ∧
    (∀ msg, o = SendOutcome.setupError msg →
      (ChatService.sendMessage o).error = some msg) := by
  refine ⟨?_, ?_, ?_, ?_⟩
  · rintro d rfl; rfl
  · rintro detail rfl
    cases detail with
    | none => exact ⟨"Server error occurred", rfl, by decide⟩
    | some s =>
        by_cases hs : s = ""
        · subst hs
          exact ⟨"Server error occurred", rfl, by decide⟩
        · refine ⟨s, ?_, hs⟩
          simp [ChatService.sendMessage, jsTruthyStr, hs]
  · rintro rfl
    exact ⟨"No response from server. Please check if backend is running.", rfl, by decide⟩
  · rintro msg rfl; rfl

/-- Witness for C7 at a concrete server-reported error with no detail. -/
theorem chat_send_never_raises_witness :
    ∃ s, (ChatService.sendMessage (SendOutcome.serverError none)).error = some s ∧
      s ≠ "" :=
  (chat_send_never_raises (SendOutcome.serverError none)).2.1 none rfl

/-- C8: Every health probe outcome yields a value — `checkBackendHealth`
returns `{online:true, info}` exactly on HTTP 200 and `{online:false, info:{}}`
otherwise, `checkMcpHealth` returns a boolean — and a health tick leaves the
message history, the loading flag and the conversation id of an in-flight
turn untouched. -/
theorem health_probe_total (bp : HttpResult BackendInfo) (mp : HttpResult Unit)
    (st : AppState) :
    ((∃ d, bp = HttpResult.ok 200 d ∧ checkBackendHealth bp = ⟨true, some d⟩) ∨
      checkBackendHealth bp = ⟨false, none⟩) ∧
    (checkMcpHealth mp = true ∨ checkMcpHealth mp = false) ∧
    (stepApp st (AppEvent.health bp mp)).messages = st.messages ∧
    (stepApp st (AppEvent.health bp mp)).isLoading = st.isLoading ∧
    (stepApp st (AppEvent.health bp mp)).conversationId = st.conversationId := by
  refine ⟨?_, ?_, ?_, ?_, ?_⟩
  · cases bp with
    | ok s d =>
        by_cases hs : s = 200
        · subst hs
          exact Or.inl ⟨d, rfl, rfl⟩
        · right
          simp [checkBackendHealth, hs]
    | thrown => exact Or.inr rfl
  · cases checkMcpHealth mp
    · exact Or.inr rfl
    · exact Or.inl rfl
  all_goals
    simp only [stepApp, checkStatus]
    split
    · split <;> rfl
    · rfl

/-- How one poll tick computes the MCP panel, characterized by the backend
probe's outcome: recomputed only when the backend reports online, from
`tools_loaded` in subprocess mode and from the separate MCP probe (constant
count 5) otherwise. -/
theorem checkStatus_mcp_spec (st : AppState) (bp : HttpResult BackendInfo)
    (mp : HttpResult Unit) :
    (checkStatus st bp mp).mcpStatus =
      match checkBackendHealth bp with
      | ⟨true, some info⟩ =>
          if strIncludes (info.mcp_integration.getD "") "subprocess" then
            ⟨decide (0 < info.tools_loaded.getD 0), info.tools_loaded.getD 0⟩
          else
            ⟨checkMcpHealth mp, if checkMcpHealth mp then 5 else 0⟩
      | _ => st.mcpStatus := by
  cases bp with
  | ok s d =>
      by_cases hs : s = 200
      · subst hs
        simp only [checkStatus, checkBackendHealth, jsTruthyObj]
        by_cases hsub : strIncludes (d.mcp_integration.getD "") "subprocess" = true
        · simp [hsub]
        · simp [hsub]
      · simp [checkStatus, checkBackendHealth, hs, jsTruthyObj]
  | thrown => simp [checkStatus, checkBackendHealth, jsTruthyObj]

/-- C4 counterexample: in separate-server mode (no `subprocess` marker in the
backend info) with a reachable tool provider whose catalog holds 3 tools, the
report delivered to the monitoring UI says 5 tools — the hard-coded constant,
not the number of tools available from the provider's catalog. -/
theorem health_toolcount_counterexample :
    (checkStatus ⟨[], none, true, false, ⟨false, none⟩, ⟨false, 0⟩⟩
        (HttpResult.ok 200 ⟨none, none⟩)
        (mcpProbeOf ⟨true, [⟨"get_current_time", "", []⟩, ⟨"calculate", "", []⟩,
          ⟨"get_weather", "", []⟩]⟩)).mcpStatus.tools = 5 ∧
    (⟨true, [⟨"get_current_time", "", []⟩, ⟨"calculate", "", []⟩,
      ⟨"get_weather", "", []⟩]⟩ : ToolProviderEnv).catalog.length = 3 ∧
    (5 : Nat) ≠ 3 := by decide

/-- C4 amended: every MCP health report delivered to the monitoring UI has
the shape online/toolCount and is produced by the 5-second poll tick; the
tick recomputes it only when the backend probe reports online — with the
backend-reported `tools_loaded` count in subprocess mode, and in
separate-server mode with the constant 5 when the MCP health endpoint
responds and 0 when it does not (not the provider catalog's size). -/
theorem health_report_shape (st : AppState) (bp : HttpResult BackendInfo)
    (mp : HttpResult Unit) :
    (checkStatus st bp mp).mcpStatus =
      match checkBackendHealth bp with
      | ⟨true, some info⟩ =>
          if strIncludes (info.mcp_integration.getD "") "subprocess" then
            ⟨decide (0 < info.tools_loaded.getD 0), info.tools_loaded.getD 0⟩
          else
            ⟨checkMcpHealth mp, if checkMcpHealth mp then 5 else 0⟩
      | _ => st.mcpStatus :=
  checkStatus_mcp_spec st bp mp

/-- C9: when the backend info's `mcp_integration` contains `subprocess`, the
UI reports the MCP provider online iff `tools_loaded` is positive (with that
count); otherwise it reports online iff the MCP health endpoint responds,
with the constant count 5. -/
theorem mcp_online_iff (st : AppState) (bp : HttpResult BackendInfo)
    (mp : HttpResult Unit) (info : BackendInfo)
    (hbp : checkBackendHealth bp = ⟨true, some info⟩) :
    (strIncludes (info.mcp_integration.getD "") "subprocess" = true →
      ((checkStatus st bp mp).mcpStatus.online = true ↔
        0 < info.tools_loaded.getD 0) ∧
      (checkStatus st bp mp).mcpStatus.tools = info.tools_loaded.getD 0) ∧
    (strIncludes (info.mcp_integration.getD "") "subprocess" = false →
      (checkStatus st bp mp).mcpStatus.online = checkMcpHealth mp ∧
      (checkStatus st bp mp).mcpStatus.tools =
        (if checkMcpHealth mp then 5 else 0)) := by
  have h : (checkStatus st bp mp).mcpStatus =
      if strIncludes (info.mcp_integration.getD "") "subprocess" then
        ⟨decide (0 < info.tools_loaded.getD 0), info.tools_loaded.getD 0⟩
      else ⟨checkMcpHealth mp, if checkMcpHealth mp then 5 else 0⟩ := by
    have h0 := checkStatus_mcp_spec st bp mp
    rw [hbp] at h0
    exact h0
  constructor
  · intro hsub
    have h1 : (checkStatus st bp mp).mcpStatus =
        ⟨decide (0 < info.tools_loaded.getD 0), info.tools_loaded.getD 0⟩ := by
      rw [h, hsub]; simp
    rw [h1]
    exact ⟨by simp, rfl⟩
  · intro hsub
    have h1 : (checkStatus st bp mp).mcpStatus =
        ⟨checkMcpHealth mp, if checkMcpHealth mp then 5 else 0⟩ := by
      rw [h, hsub]; simp
    rw [h1]
    exact ⟨rfl, rfl⟩

/-- Witness for C9 at a concrete subprocess-mode probe with 3 loaded tools. -/
theorem mcp_online_iff_witness :
    ((checkStatus ⟨[], none, true, false, ⟨false, none⟩, ⟨false, 0⟩⟩
        (HttpResult.ok 200 ⟨some "openai subprocess", some 3⟩)
        HttpResult.thrown).mcpStatus.online = true ↔ 0 < (3 : Nat)) ∧
    (checkStatus ⟨[], none, true, false, ⟨false, none⟩, ⟨false, 0⟩⟩
        (HttpResult.ok 200 ⟨some "openai subprocess", some 3⟩)
        HttpResult.thrown).mcpStatus.tools = 3 :=
  (mcp_online_iff ⟨[], none, true, false, ⟨false, none⟩, ⟨false, 0⟩⟩
    (HttpResult.ok 200 ⟨some "openai subprocess", some 3⟩) HttpResult.thrown
    ⟨some "openai subprocess", some 3⟩ rfl).1 (by decide)

/-- C10 counterexample: a failing service call (request-setup failure with an
empty message) yields a result that carries an error field, yet the code
takes the success path: the stored conversation id is changed (cleared) and
the appended assistant message is not marked as an error. -/
theorem error_frame_counterexample :
    (ChatService.sendMessage (SendOutcome.setupError "")).error = some "" ∧
    (handleSendMessage ⟨[], some "abc", true, false, ⟨false, none⟩, ⟨false, 0⟩⟩
        "hi" (SendOutcome.setupError "") "t1" "t2").conversationId = none ∧
    (∀ m ∈ (handleSendMessage ⟨[], some "abc", true, false, ⟨false, none⟩, ⟨false, 0⟩⟩
        "hi" (SendOutcome.setupError "") "t1" "t2").messages,
      m.isError = false) := by decide

/-- C10 amended: for every accepted submission whose service result carries a
non-empty error string (every failure surfaces one except a setup failure
with an empty message), the stored conversation id is unchanged, and the only
state changes are appending the user message, appending one error-marked
assistant message whose content is `Error: ` followed by the error string,
and resetting the loading flag. -/
theorem error_submission_frame (st : AppState) (msg : String) (o : SendOutcome)
    (ts1 ts2 : String) (hmsg : jsTrim msg ≠ "") (hload : st.isLoading = false)
    (herr : jsTruthyStr (ChatService.sendMessage o).error = true) :
    handleSendMessage st msg o ts1 ts2 =
      { st with
          messages := st.messages ++
            [⟨"user", some msg, ts1, none, false⟩,
             ⟨"assistant",
               some ("Error: " ++ (ChatService.sendMessage o).error.getD ""),
               ts2, none, true⟩],
          isLoading := false } := by
  obtain ⟨ms, cid, ut, il, bs, mcs⟩ := st
  simp only at hload
  subst hload
  simp [handleSendMessage, hmsg, herr]

/-- Witness for C10 at a concrete no-response failure. -/
theorem error_submission_frame_witness :
    handleSendMessage ⟨[], some "abc", true, false, ⟨false, none⟩, ⟨false, 0⟩⟩
        "hi" SendOutcome.noResponse "t1" "t2" =
      ⟨[⟨"user", some "hi", "t1", none, false⟩,
        ⟨"assistant",
          some "Error: No response from server. Please check if backend is running.",
          "t2", none, true⟩], some "abc", true, false, ⟨false, none⟩, ⟨false, 0⟩⟩ :=
  error_submission_frame _ "hi" SendOutcome.noResponse "t1" "t2" (by decide) rfl rfl

/-- The round loop never uses more rounds than its remaining budget. -/
theorem runRounds_rounds_le (service : List OrchMessage → CompletionResponse)
    (exec : ToolInvocation → ToolResult) :
    ∀ (n used : Nat) (history : List OrchMessage),
      (runRounds service exec history n used).roundsUsed ≤ used + n := by
  intro n
  induction n with
  | zero => intro used history; exact Nat.le_refl _
  | succ n ih =>
      intro used history
      simp only [runRounds]
      cases hsvc : service history with
      | finalContent c => simp
      | toolCalls calls =>
          have := ih (used + 1)
            (history ++ OrchMessage.assistantToolCalls calls ::
              (calls.map exec).map (fun r => OrchMessage.tool r.callId r.payload))
          simp only []
          omega

/-- Against a completion service that requests tools on every response, the
round loop exhausts its budget and fails with `ToolLoopExceeded`, carrying a
degradation notice. -/
theorem runRounds_always_tool (service : List OrchMessage → CompletionResponse)
    (exec : ToolInvocation → ToolResult)
    (halways : ∀ h, ∃ calls, service h = CompletionResponse.toolCalls calls) :
    ∀ (n used : Nat) (history : List OrchMessage),
      (runRounds service exec history n used).status = TurnStatus.FAILED ∧
      (runRounds service exec history n used).error =
        some OrchError.ToolLoopExceeded ∧
      (runRounds service exec history n used).degradation.isSome = true ∧
      (runRounds service exec history n used).roundsUsed = used + n := by
  intro n
  induction n with
  | zero => intro used history; exact ⟨rfl, rfl, rfl, rfl⟩
  | succ n ih =>
      intro used history
      obtain ⟨calls, hc⟩ := halways history
      simp only [runRounds, hc]
      have h := ih (used + 1)
        (history ++ OrchMessage.assistantToolCalls calls ::
          (calls.map exec).map (fun r => OrchMessage.tool r.callId r.payload))
      exact ⟨h.1, h.2.1, h.2.2.1, by rw [h.2.2.2]; omega⟩

/-- C2: A turn terminates after at most the configured maximum number of
rounds for every completion service and tool executor; a service that
requests a tool on every response exhausts the bound and the turn ends
`FAILED` with `ToolLoopExceeded`, a (partial) answer field and a degradation
notice — the loop never runs unboundedly. -/
theorem tool_loop_bounded (service : List OrchMessage → CompletionResponse)
    (exec : ToolInvocation → ToolResult) (maxRounds : Nat)
    (history : List OrchMessage) :
    (runTurn service exec maxRounds history).roundsUsed ≤ maxRounds ∧
    ((∀ h, ∃ calls, service h = CompletionResponse.toolCalls calls) →
      (runTurn service exec maxRounds history).status = TurnStatus.FAILED ∧
      (runTurn service exec maxRounds history).error =
        some OrchError.ToolLoopExceeded ∧
      (runTurn service exec maxRounds history).degradation.isSome = true ∧
      (runTurn service exec maxRounds history).roundsUsed = maxRounds) := by
  constructor
  · have h := runRounds_rounds_le service exec maxRounds 0 history
    simp only [runTurn]
    omega
  · intro halways
    have h := runRounds_always_tool service exec halways maxRounds 0 history
    refine ⟨h.1, h.2.1, h.2.2.1, ?_⟩
    have := h.2.2.2
    simp only [runTurn]
    omega

/-- Witness for C2: a stub completion service that always requests the
`calculate` tool terminates at the default bound of 5 rounds with
`ToolLoopExceeded`. -/
theorem tool_loop_bounded_witness :
    (runTurn
        (fun _ => CompletionResponse.toolCalls
          [⟨"calculate", [("expression", "2+2")], "call_1"⟩])
        (execute (fun _ => ProviderOutcome.result "4"))
        DEFAULT_MAX_TOOL_ROUNDS [OrchMessage.user "Calculate 2+2"]).status =
      TurnStatus.FAILED ∧
    (runTurn
        (fun _ => CompletionResponse.toolCalls
          [⟨"calculate", [("expression", "2+2")], "call_1"⟩])
        (execute (fun _ => ProviderOutcome.result "4"))
        DEFAULT_MAX_TOOL_ROUNDS [OrchMessage.user "Calculate 2+2"]).error =
      some OrchError.ToolLoopExceeded ∧
    (runTurn
        (fun _ => CompletionResponse.toolCalls
          [⟨"calculate", [("expression", "2+2")], "call_1"⟩])
        (execute (fun _ => ProviderOutcome.result "4"))
        DEFAULT_MAX_TOOL_ROUNDS [OrchMessage.user "Calculate 2+2"]).degradation.isSome =
      true ∧
    (runTurn
        (fun _ => CompletionResponse.toolCalls
          [⟨"calculate", [("expression", "2+2")], "call_1"⟩])
        (execute (fun _ => ProviderOutcome.result "4"))
        DEFAULT_MAX_TOOL_ROUNDS [OrchMessage.user "Calculate 2+2"]).roundsUsed =
      DEFAULT_MAX_TOOL_ROUNDS :=
  (tool_loop_bounded _ _ DEFAULT_MAX_TOOL_ROUNDS _).2 (fun _ => ⟨_, rfl⟩)

/-- C5: A second `fetchTools` call that falls inside the time-to-live window
of the catalog cached by the first call issues no upstream request and
returns a value identical to the first call's result, leaving the bridge
state unchanged. -/
theorem fetch_cached_within_ttl (upstream : Nat → List ToolDescriptor)
    (st : BridgeState) (now1 now2 : Nat)
    (h : now2 < cacheStamp (fetchTools upstream st now1).state + st.ttl) :
    fetchTools upstream (fetchTools upstream st now1).state now2 =
      ⟨(fetchTools upstream st now1).value, (fetchTools upstream st now1).state,
        false⟩ := by
  obtain ⟨ttl, cache⟩ := st
  cases cache with
  | none =>
      simp only [fetchTools, cacheStamp] at h ⊢
      rw [if_pos h]
  | some vt =>
      obtain ⟨v, t⟩ := vt
      by_cases h1 : now1 < t + ttl
      · simp only [fetchTools, cacheStamp, if_pos h1] at h ⊢
        rw [if_pos h]
      · simp only [fetchTools, cacheStamp, if_neg h1] at h ⊢
        rw [if_pos h]

/-- Witness for C5: with an empty cache and the default 30s time-to-live, a
fetch at time 0 followed by one at time 10 hits the cache. -/
theorem fetch_cached_within_ttl_witness :
    (10 < cacheStamp (fetchTools
        (fun _ => [⟨"calculate", "Perform calculations", ["expression"]⟩])
        ⟨DEFAULT_CATALOG_TTL, none⟩ 0).state + DEFAULT_CATALOG_TTL) ∧
    fetchTools (fun _ => [⟨"calculate", "Perform calculations", ["expression"]⟩])
        (fetchTools (fun _ => [⟨"calculate", "Perform calculations", ["expression"]⟩])
          ⟨DEFAULT_CATALOG_TTL, none⟩ 0).state 10 =
      ⟨(fetchTools (fun _ => [⟨"calculate", "Perform calculations", ["expression"]⟩])
          ⟨DEFAULT_CATALOG_TTL, none⟩ 0).value,
        (fetchTools (fun _ => [⟨"calculate", "Perform calculations", ["expression"]⟩])
          ⟨DEFAULT_CATALOG_TTL, none⟩ 0).state, false⟩ :=
  ⟨by decide, fetch_cached_within_ttl _ _ 0 10 (by decide)⟩

/-- The executor stamps every result with the originating call id, whatever
the provider reports. -/
theorem execute_callId (provider : ToolInvocation → ProviderOutcome)
    (inv : ToolInvocation) : (execute provider inv).callId = inv.callId := by
  unfold execute
  cases provider inv <;> rfl

/-- Finding the unique match is invariant under permutation: if at most one
element of the list satisfies the predicate, `find?` returns the same answer
on any reordering. -/
theorem find_eq_of_perm_unique {α : Type} (p : α → Bool) {l1 l2 : List α}
    (hperm : l1.Perm l2)
    (huniq : ∀ a ∈ l1, ∀ b ∈ l1, p a → p b → a = b) :
    l1.find? p = l2.find? p := by
  by_cases hex : ∃ a ∈ l1, p a
  · have hs1 : (l1.find? p).isSome := List.find?_isSome.mpr hex
    have hs2 : (l2.find? p).isSome :=
      List.find?_isSome.mpr (by
        obtain ⟨a, ha, hpa⟩ := hex
        exact ⟨a, hperm.mem_iff.mp ha, hpa⟩)
    obtain ⟨x1, hx1⟩ := Option.isSome_iff_exists.mp hs1
    obtain ⟨x2, hx2⟩ := Option.isSome_iff_exists.mp hs2
    rw [hx1, hx2]
    have hm1 : x1 ∈ l1 := List.mem_of_find?_eq_some hx1
    have hm2 : x2 ∈ l1 := hperm.mem_iff.mpr (List.mem_of_find?_eq_some hx2)
    rw [huniq x1 hm1 x2 hm2 (List.find?_some hx1) (List.find?_some hx2)]
  · push_neg at hex
    have he1 : l1.find? p = none :=
      List.find?_eq_none.mpr (by
        intro x hx
        simpa using hex x hx)
    have he2 : l2.find? p = none :=
      List.find?_eq_none.mpr (by
        intro x hx
        simpa using hex x (hperm.mem_iff.mpr hx))
    rw [he1, he2]

/-- C6: For every set of invocations dispatched in one turn with call ids
unique within the turn, `executeAll` returns the same call-id-keyed
collection of `ToolResult`s under any two completion orders — the
fan-out/fan-in result is independent of completion timing and
interleaving. -/
theorem executeAll_order_independent (provider : ToolInvocation → ProviderOutcome)
    (invs o1 o2 : List ToolInvocation) (h1 : o1.Perm invs) (h2 : o2.Perm invs)
    (hids : (invs.map ToolInvocation.callId).Nodup) :
    executeAll provider invs o1 = executeAll provider invs o2 := by
  unfold executeAll
  apply List.filterMap_congr
  intro inv _
  unfold resultFor
  apply find_eq_of_perm_unique
  · exact (h1.map (execute provider)).trans (h2.map (execute provider)).symm
  · intro a ha b hb hpa hpb
    obtain ⟨ia, hia, rfl⟩ := List.mem_map.mp ha
    obtain ⟨ib, hib, rfl⟩ := List.mem_map.mp hb
    have hida : ia.callId = inv.callId := by
      simpa [execute_callId] using hpa
    have hidb : ib.callId = inv.callId := by
      simpa [execute_callId] using hpb
    have : ia = ib :=
      List.inj_on_of_nodup_map hids (h1.mem_iff.mp hia) (h1.mem_iff.mp hib)
        (by rw [hida, hidb])
    rw [this]

/-- Witness for C6: two invocations completing in either order produce the
same keyed result list. -/
theorem executeAll_order_independent_witness :
    List.Perm [(⟨"b", [], "call_2"⟩ : ToolInvocation), ⟨"a", [], "call_1"⟩]
      [⟨"a", [], "call_1"⟩, ⟨"b", [], "call_2"⟩] ∧
    executeAll (fun inv => ProviderOutcome.result inv.name)
        [⟨"a", [], "call_1"⟩, ⟨"b", [], "call_2"⟩]
        [⟨"b", [], "call_2"⟩, ⟨"a", [], "call_1"⟩] =
      executeAll (fun inv => ProviderOutcome.result inv.name)
        [⟨"a", [], "call_1"⟩, ⟨"b", [], "call_2"⟩]
        [⟨"a", [], "call_1"⟩, ⟨"b", [], "call_2"⟩] :=
  ⟨by decide, executeAll_order_independent _ _ _ _ (by decide) (by decide) (by decide)⟩

end OpenaiMcp
